import Mathlib

/-!
# Verification of the BubbleSubtitle pipeline (src/main.py, src/utils.py)

A shallow embedding of the video-transcription pipeline.  Byte counts are
`Nat` and times are integer microseconds (`Int`) — the exact internal
unit of Python `timedelta`, standing in for Python's float seconds — and
external effects (HTTP fetches, ffmpeg, Whisper, GCS) are
supplied by an `Env` oracle recording the outcome of each external call.
The functions `process_audio_batch`, `process_video_task_streaming`,
`handle_request`, … mirror the control flow of the Python source;
`RunState` additionally carries ghost log fields (`globalCues`,
`batchLog`) that record numeric values the source computes or discards,
without altering control flow.
-/

namespace BubbleSpec

/-- One Whisper transcript segment (`segment.start`, `segment.end`,
`segment.text` in src/utils.py, lines 508-518).  `stop` stands for the
Python attribute `end`, which is a Lean keyword. -/
structure Cue where
  start : Int
  stop : Int
  text : String
deriving DecidableEq

/-- Ghost record of one cue after the `+ time_offset` shift performed in
`process_audio_batch` (src/utils.py lines 509-510): the GlobalCue of the
spec.  `text` is kept untrimmed; trimming happens at rendering, as in the
source. -/
structure GlobalCue where
  gstart : Int
  gstop : Int
  text : String
deriving DecidableEq

/-- src/utils.py line 25. -/
def VIDEO_CHUNK_SIZE_MB : Nat := 50

/-- src/utils.py line 26. -/
def VIDEO_CHUNK_SIZE_BYTES : Nat := VIDEO_CHUNK_SIZE_MB * 1024 * 1024

/-- src/utils.py line 27. -/
def AUDIO_BATCH_SIZE_MB : Nat := 24

/-- src/utils.py line 28. -/
def AUDIO_BATCH_SIZE_BYTES : Nat := AUDIO_BATCH_SIZE_MB * 1024 * 1024

/-- Zero-padding to two digits, as Python `str(timedelta)` does for the
minute and second fields. -/
def pad2 (n : Nat) : String :=
  if n < 10 then "0" ++ toString n else toString n

/-- Zero-padding to six digits, as Python `str(timedelta)` does for the
microsecond field (`%06d`). -/
def pad6 (n : Nat) : String :=
  let s := toString n
  String.mk (List.replicate (6 - s.length) '0') ++ s

/-- Python `str(datetime.timedelta(...))` on a timedelta of `us`
microseconds: `"H:MM:SS"` with unpadded hours, a `".ffffff"` microsecond
suffix only when the microseconds are nonzero, and a `"D day(s), "`
prefix only when the day count is nonzero. -/
def pyTimedeltaStr (us : Int) : String :=
  let dayUs : Int := 86400000000
  let days : Int := Int.fdiv us dayUs
  let rem : Nat := (us - days * dayUs).toNat
  let micro : Nat := rem % 1000000
  let totsec : Nat := rem / 1000000
  let ss : Nat := totsec % 60
  let mm : Nat := totsec / 60 % 60
  let hh : Nat := totsec / 3600
  let base : String := toString hh ++ ":" ++ pad2 mm ++ ":" ++ pad2 ss
  let base : String := if micro = 0 then base else base ++ "." ++ pad6 micro
  if days = 0 then base
  else toString days ++ (if days = 1 ∨ days = -1 then " day, " else " days, ") ++ base

/-- Python `s[:-n]`: all but the last `n` characters (empty when the
string is no longer than `n`). -/
def pySliceDropRight (s : String) (n : Nat) : String :=
  String.mk (s.data.take (s.data.length - n))

/-- Python `s.replace` of dot by comma: every dot becomes a comma (the pattern is a
single character, so per-character mapping is exact). -/
def pyReplaceDotComma (s : String) : String :=
  String.mk (s.data.map (fun c => if c = '.' then ',' else c))

/-- Python `s.strip()`: leading and trailing whitespace removed
(`Char.isWhitespace` and Python's whitespace set agree on the ASCII
whitespace that occurs here). -/
def pyStrip (s : String) : String :=
  String.mk (((s.data.dropWhile Char.isWhitespace).reverse.dropWhile Char.isWhitespace).reverse)

/-- src/utils.py lines 512-513, for a time of `t` microseconds:
`str(timedelta(seconds=t))[:-3]` with every dot replaced by a comma. -/
def srtTimestamp (t : Int) : String :=
  pyReplaceDotComma (pySliceDropRight (pyTimedeltaStr t) 3)

/-- src/utils.py lines 509-515: one SRT entry for a transcript segment,
`"{start_str} --> {end_str}\n{segment.text.strip()}"`, with both
timestamps shifted by the running `time_offset`. -/
def srtEntryLines (timeOffset : Int) (seg : Cue) : String :=
  srtTimestamp (seg.start + timeOffset) ++ " --> " ++ srtTimestamp (seg.stop + timeOffset)
    ++ "\n" ++ pyStrip seg.text

/-- The Whisper call outcome for one audio batch: `none` models any
exception inside the `try` of `process_audio_batch` (GCS upload failure
or transcription failure), `some segs` a transcript with the given
segments. -/
abbrev BatchOutcome := Option (List Cue)

/-- src/utils.py lines 482-525, `process_audio_batch`: returns the SRT
entry strings and `batch_duration`, which the source computes as the
running `max` of the transcript segments' `end` fields starting from
`0.0`; on any exception it returns `([], 0.0)`. -/
def process_audio_batch (timeOffset : Int) (result : BatchOutcome) : List String × Int :=
  match result with
  | none => ([], 0)
  | some segs =>
    let srtEntries := segs.map (srtEntryLines timeOffset)
    let batchDuration := segs.foldl (fun d seg => max d seg.stop) 0
    (srtEntries, batchDuration)

/-- The numeric shift applied to one cue in `process_audio_batch`
(src/utils.py lines 509-510). -/
def globalize (timeOffset : Int) (seg : Cue) : GlobalCue :=
  ⟨seg.start + timeOffset, seg.stop + timeOffset, seg.text⟩

/-- Ghost shadow of `process_audio_batch`: the numeric global cues
corresponding one-for-one to the SRT entry strings it emits. -/
def globalizeCues (timeOffset : Int) (result : BatchOutcome) : List GlobalCue :=
  match result with
  | none => []
  | some segs => segs.map (globalize timeOffset)

/-- src/utils.py lines 145-147: the final SRT file is written as
`f"{i + 1}\n{srt_entry}\n"` for each accumulated entry, in order. -/
def writeSrt (entries : List String) : String :=
  String.join (entries.enum.map (fun p => toString (p.1 + 1) ++ "\n" ++ p.2 ++ "\n"))

/-- A webhook POST attempt made by `process_video_task_streaming`:
either the success payload (line 167) or the failure payload (line 184). -/
inductive PostKind
  | success
  | failure
deriving DecidableEq

/-- Ghost record of one audio batch submitted to `process_audio_batch`:
its accumulated encoded byte size, the byte size of the final audio chunk
that triggered the flush, the measured (ffprobe) duration of the audio it
contains (the sum of the `chunk_duration` values the source computed for
its chunks and then discarded), the amount by which the source actually
advanced `total_duration_offset` for it, and its cue count. -/
structure BatchRecord where
  size : Nat
  lastChunkSize : Nat
  measuredDur : Int
  advance : Int
  nCues : Nat
deriving DecidableEq

/-- The mutable state of `process_video_task_streaming`
(src/utils.py lines 60-64), plus ghost logs. `accumSize` is
`accumulated_size`, `offset` is `total_duration_offset`, `parts` is
`final_srt_parts`, `batchCount` is `audio_batch_count`.  `accumDur`,
`globalCues` and `batchLog` are ghost fields; `posts` records webhook
POST attempts. -/
structure RunState where
  accumSize : Nat
  accumDur : Int
  batchCount : Nat
  offset : Int
  parts : List String
  globalCues : List GlobalCue
  batchLog : List BatchRecord
  posts : List PostKind
deriving DecidableEq

/-- Initial state (src/utils.py lines 60-64). -/
def initState : RunState := ⟨0, 0, 0, 0, [], [], [], []⟩

/-- Result of a piece of the `try` body: normal continuation or a raised
exception carrying the state reached so far. -/
inductive StepResult
  | ok (s : RunState)
  | err (s : RunState) (msg : String)
deriving DecidableEq

/-- The state carried by a `StepResult`, whichever constructor. -/
def resultState : StepResult → RunState
  | StepResult.ok s => s
  | StepResult.err s _ => s

/-- Whether the name `download_video_chunk` resolves.  In src/utils.py it
is `unbound`: no `def download_video_chunk` line exists at module scope
(its intended body survives only as unreachable dead code after the two
`return`s of `verify_mp4_structure`, lines 360-381), so calling it raises
`NameError`.  `bound` — Modelled from the spec: the `fetch` capability of
spec section 6 together with the orphaned body; the missing definition
would return success or failure of the ranged download. -/
inductive DvcMode
  | unbound
  | bound
deriving DecidableEq

/-- Oracle for the externally-determined outcomes of one task run. -/
structure Env where
  headOk : Bool
  totalSize : Nat
  metadataOk : Bool
  chunkOk : Nat → Bool
  combineOk : Nat → Bool
  chunkAudio : Nat → Option (Nat × Int)
  batchResult : Nat → BatchOutcome
  srtUploadOk : Bool
  successPostOk : Bool

/-- The Python `NameError` raised at src/utils.py line 75 because
`download_video_chunk` is not bound at module scope. -/
def nameErrorMsg : String := "NameError: name download_video_chunk is not defined"

/-- src/utils.py line 76. -/
def chunkDownloadErr (i : Nat) : String := "video chunk download failed: " ++ toString i

/-- src/utils.py line 83. -/
def chunkCombineErr (i : Nat) : String := "metadata combine failed: " ++ toString i

/-- src/utils.py line 91. -/
def chunkConvertErr (i : Nat) : String := "audio convert failed: " ++ toString i

/-- src/utils.py lines 110-135: flush the accumulated audio as one batch:
increment `audio_batch_count`, call `process_audio_batch`, and only when
the returned `srt_part` list is non-empty (Python truthiness of
`if srt_part:`) extend `final_srt_parts` and advance
`total_duration_offset` by the returned `batch_duration`; in every case
reset the accumulator. -/
def flushBatch (env : Env) (accumulatedSize audioSize : Nat) (accumulatedDur : Int)
    (s : RunState) : RunState :=
  if (process_audio_batch s.offset (env.batchResult (s.batchCount + 1))).1 ≠ [] then
    ⟨0, 0, s.batchCount + 1,
      s.offset + (process_audio_batch s.offset (env.batchResult (s.batchCount + 1))).2,
      s.parts ++ (process_audio_batch s.offset (env.batchResult (s.batchCount + 1))).1,
      s.globalCues ++ globalizeCues s.offset (env.batchResult (s.batchCount + 1)),
      s.batchLog ++ [⟨accumulatedSize, audioSize, accumulatedDur,
        (process_audio_batch s.offset (env.batchResult (s.batchCount + 1))).2,
        (globalizeCues s.offset (env.batchResult (s.batchCount + 1))).length⟩],
      s.posts⟩
  else
    ⟨0, 0, s.batchCount + 1, s.offset, s.parts, s.globalCues,
      s.batchLog ++ [⟨accumulatedSize, audioSize, accumulatedDur, 0,
        (globalizeCues s.offset (env.batchResult (s.batchCount + 1))).length⟩],
      s.posts⟩

/-- One iteration of the chunk loop (src/utils.py lines 67-140): download
the video chunk (a call to the unbound name `download_video_chunk`),
combine it with the metadata, convert it to audio, accumulate the audio,
and flush a batch when `accumulated_size >= AUDIO_BATCH_SIZE_BYTES` or
this is the last chunk (and the accumulator is non-empty). -/
def stepChunk (dvc : DvcMode) (env : Env) (numChunks chunkIdx : Nat)
    (s : RunState) : StepResult :=
  match dvc with
  | DvcMode.unbound => StepResult.err s nameErrorMsg
  | DvcMode.bound =>
    if env.chunkOk chunkIdx then
      if env.combineOk chunkIdx then
        match env.chunkAudio chunkIdx with
        | none => StepResult.err s (chunkConvertErr chunkIdx)
        | some audio =>
          if (AUDIO_BATCH_SIZE_BYTES ≤ s.accumSize + audio.1 ∨ chunkIdx = numChunks - 1)
              ∧ 0 < s.accumSize + audio.1 then
            StepResult.ok (flushBatch env (s.accumSize + audio.1) audio.1
              (s.accumDur + audio.2) s)
          else
            StepResult.ok ⟨s.accumSize + audio.1, s.accumDur + audio.2, s.batchCount,
              s.offset, s.parts, s.globalCues, s.batchLog, s.posts⟩
      else StepResult.err s (chunkCombineErr chunkIdx)
    else StepResult.err s (chunkDownloadErr chunkIdx)

/-- The chunk loop over the given chunk indices, propagating the first
raised exception. -/
def runChunks (dvc : DvcMode) (env : Env) (numChunks : Nat) :
    List Nat → RunState → StepResult
  | [], s => StepResult.ok s
  | i :: rest, s =>
    match stepChunk dvc env numChunks i s with
    | StepResult.ok s2 => runChunks dvc env numChunks rest s2
    | StepResult.err s2 m => StepResult.err s2 m

/-- src/utils.py line 56:
`num_video_chunks = (total_size + VIDEO_CHUNK_SIZE_BYTES - 1) // VIDEO_CHUNK_SIZE_BYTES`. -/
def num_video_chunks (totalSize : Nat) : Nat :=
  (totalSize + VIDEO_CHUNK_SIZE_BYTES - 1) / VIDEO_CHUNK_SIZE_BYTES

/-- The whole `try` body of `process_video_task_streaming`
(src/utils.py lines 42-170): HEAD probe, metadata download, chunk loop,
then — only when `final_srt_parts` is non-empty — SRT write, GCS upload
and the success webhook POST (which itself may raise, line 167); when no
batch produced entries the source raises (line 170).  The
`maxSegmentMb` parameter is received (line 30) and never read, exactly as
in the source. -/
def pipelineBody (maxSegmentMb : Nat) (dvc : DvcMode) (env : Env) : StepResult :=
  if env.headOk then
    if env.metadataOk then
      match runChunks dvc env (num_video_chunks env.totalSize)
          (List.range (num_video_chunks env.totalSize)) initState with
      | StepResult.err s m => StepResult.err s m
      | StepResult.ok s =>
        if s.parts ≠ [] then
          if env.srtUploadOk then
            if env.successPostOk then
              StepResult.ok { s with posts := s.posts ++ [PostKind.success] }
            else
              StepResult.err { s with posts := s.posts ++ [PostKind.success] }
                "success webhook post failed"
          else StepResult.err s "GCS upload failed"
        else StepResult.err s "no audio batch processed"
    else StepResult.err initState "cannot download MP4 metadata"
  else StepResult.err initState "HEAD request failed"

/-- src/utils.py lines 30-189, `process_video_task_streaming`: the `try`
body wrapped in the outer `except Exception` handler, which builds a
failure payload and attempts one best-effort webhook POST of it, itself
wrapped in a bare `try/except: pass` (so it cannot raise); the `finally`
removes the temp dir with `ignore_errors=True` (no observable state).
The function always returns normally. -/
def process_video_task_streaming (maxSegmentMb : Nat) (dvc : DvcMode) (env : Env) : RunState :=
  match pipelineBody maxSegmentMb dvc env with
  | StepResult.ok s => s
  | StepResult.err s _ => { s with posts := s.posts ++ [PostKind.failure] }

/-- src/utils.py lines 543-545: `process_video_task` forwards everything
to `process_video_task_streaming`. -/
def process_video_task (maxSegmentMb : Nat) (dvc : DvcMode) (env : Env) : RunState :=
  process_video_task_streaming maxSegmentMb dvc env

/-- Every name bound at module scope in src/utils.py, in source order:
the ten imports (lines 1-10), the module constants (lines 13-28), and the
nine `def` statements.  No `def download_video_chunk` line exists; the
code meant for it sits unreachable inside `verify_mp4_structure`. -/
def utilsModuleNames : List String :=
  ["os", "tempfile", "shutil", "logging", "requests", "timedelta", "storage",
   "OpenAI", "subprocess", "io", "client", "logger", "VERSION", "BUCKET_NAME",
   "CHUNK_FOLDER", "SRT_FOLDER", "VIDEO_CHUNK_SIZE_MB", "VIDEO_CHUNK_SIZE_BYTES",
   "AUDIO_BATCH_SIZE_MB", "AUDIO_BATCH_SIZE_BYTES", "process_video_task_streaming",
   "download_mp4_metadata", "download_combined_metadata", "combine_chunk_with_metadata",
   "verify_mp4_structure", "convert_to_audio", "get_audio_duration",
   "process_audio_batch", "upload_to_gcs", "process_video_task"]

/-- A JSON value as far as the request handler inspects one: a string or
an integer (Python truthiness: `""` and `0` are falsy). -/
inductive JVal
  | s (v : String)
  | n (v : Int)
deriving DecidableEq

/-- Python truthiness of `data.get(key)` for the fields checked by
`all([...])` in src/main.py line 43. -/
def truthy : Option JVal → Bool
  | none => false
  | some (JVal.s v) => v ≠ ""
  | some (JVal.n v) => v ≠ 0

/-- The observable outcome of `handle_request`: HTTP status and whether
`process_video_task` was invoked. -/
structure HandlerResult where
  status : Nat
  started : Bool
deriving DecidableEq

/-- src/main.py lines 17-79, `handle_request`: OPTIONS preflight returns
200; an unparsable or falsy (empty) JSON body returns 400; then the
handler reads `video_url`, `task_id` and — note — the webhook URL from
the body key `"n8n_webhook"` (line 39), and returns 400 when
`not all([video_url, task_id, webhook_url])`; otherwise it calls
`process_video_task` and returns 200.  (The 500 path for an exception
escaping `process_video_task` is unreachable: that function catches all
exceptions.) -/
def handle_request (method : String) (body : Option (List (String × JVal))) : HandlerResult :=
  if method = "OPTIONS" then ⟨200, false⟩
  else
    match body with
    | none => ⟨400, false⟩
    | some data =>
      if data = [] then ⟨400, false⟩
      else
        let video_url := data.lookup "video_url"
        let task_id := data.lookup "task_id"
        let webhook_url := data.lookup "n8n_webhook"
        if truthy video_url && truthy task_id && truthy webhook_url then ⟨200, true⟩
        else ⟨400, false⟩

/-- src/main.py line 38: `max_segment_mb = data.get("max_segment_mb", 24)`. -/
def parse_max_segment_mb (data : List (String × JVal)) : JVal :=
  (data.lookup "max_segment_mb").getD (JVal.n 24)

/-- Zero-padding to three digits. -/
def pad3 (n : Nat) : String :=
  let s := toString n
  String.mk (List.replicate (3 - s.length) '0') ++ s

/-- The SRT entry the source produces for one already-globalized cue:
composition of src/utils.py lines 512-515 at the shifted times. -/
def srtEntryOfGlobal (c : GlobalCue) : String :=
  srtTimestamp c.gstart ++ " --> " ++ srtTimestamp c.gstop ++ "\n" ++ pyStrip c.text

/-- The serialized subtitle output the source produces for an assembled
GlobalCue sequence: the entry builder of `process_audio_batch` followed
by the numbering loop of src/utils.py lines 145-147. -/
def renderSrtFile (cues : List GlobalCue) : String :=
  writeSrt (cues.map srtEntryOfGlobal)

/-- The timestamp format claim C6 asserts: zero-padded `HH:MM:SS,mmm` at
millisecond precision (floor-to-millisecond; the counterexample uses
exact-millisecond inputs so the rounding choice is immaterial). -/
def specTimestamp (t : Int) : String :=
  let msN : Nat := (Int.fdiv t 1000).toNat
  pad2 (msN / 1000 / 3600) ++ ":" ++ pad2 (msN / 1000 / 60 % 60) ++ ":"
    ++ pad2 (msN / 1000 % 60) ++ "," ++ pad3 (msN % 1000)

/-- The rendering claim C6 asserts: blocks
`{n}\n{start} --> {end}\n{text}\n\n` with a blank line terminating each
cue block and `specTimestamp` timestamps. -/
def claimedRenderC6 (cues : List GlobalCue) : String :=
  String.join (cues.enum.map (fun p =>
    toString (p.1 + 1) ++ "\n" ++ specTimestamp p.2.gstart ++ " --> "
      ++ specTimestamp p.2.gstop ++ "\n" ++ pyStrip p.2.text ++ "\n\n"))

/-- The rendering of the amended claim C6, written as one pass over the
cue sequence: sequence numbers `1..N`, blocks terminated by a single
newline (no blank line), timestamps as Python
`str(timedelta(seconds=t))[:-3]` (dots to commas) produces them. -/
def amendedRenderC6 (cues : List GlobalCue) : String :=
  String.join (cues.enum.map (fun p =>
    toString (p.1 + 1) ++ "\n" ++ srtEntryOfGlobal p.2 ++ "\n"))

/- ### Concrete environments used by the per-claim theorems -/

/-- Three 50 MB video chunks, each transcoding to 13 MB of audio. -/
def envC1 : Env :=
  ⟨true, 125829120, true, fun _ => true, fun _ => true,
   fun _ => some (13631488, 1000000), fun _ => some [], true, true⟩

/-- One video chunk; no audio conversion result is ever needed because
`download_video_chunk` raises first. -/
def envC2w : Env :=
  ⟨true, 1000, true, fun _ => true, fun _ => true,
   fun _ => none, fun _ => none, true, true⟩

/-- One chunk whose audio measures 60 s while its transcript's last cue
ends at 55 s. -/
def envC3 : Env :=
  ⟨true, 1000, true, fun _ => true, fun _ => true,
   fun _ => some (100, 60000000), fun _ => some [⟨10000000, 55000000, "hello"⟩], true, true⟩

/-- Two chunks: the first, 25 MB / 30 s of audio, is flushed as batch 1
and yields zero cues; the second, 1 MB / 4 s, becomes batch 2 with one
cue at local time 0-5. -/
def envC4 : Env :=
  ⟨true, 62914560, true, fun _ => true, fun _ => true,
   fun i => if i = 0 then some (26214400, 30000000) else some (1048576, 4000000),
   fun b => if b = 1 then some [] else some [⟨0, 5000000, "late"⟩], true, true⟩

/-- One chunk; every batch transcribes to two well-formed ordered cues. -/
def envC5w : Env :=
  ⟨true, 1000, true, fun _ => true, fun _ => true,
   fun _ => some (100, 10000000), fun _ => some [⟨0, 1000000, "a"⟩, ⟨2000000, 3000000, "b"⟩], true, true⟩

/-- Metadata download fails: the first fatal pipeline error. -/
def envC7w : Env :=
  ⟨true, 0, false, fun _ => true, fun _ => true,
   fun _ => none, fun _ => none, true, true⟩

/-- A fully successful pipeline whose success-callback POST raises. -/
def envC8 : Env :=
  ⟨true, 1000, true, fun _ => true, fun _ => true,
   fun _ => some (100, 5000000), fun _ => some [⟨0, 4000000, "hi"⟩], true, false⟩

/-- Two chunks of 12 MB audio each, caller ceiling 10 MB. -/
def envC10 : Env :=
  ⟨true, 62914560, true, fun _ => true, fun _ => true,
   fun _ => some (12582912, 1000000), fun _ => some [], true, true⟩

/-- The single global cue used by the C6 counterexample: 2.5 s to 5 s. -/
def c6cue : GlobalCue := ⟨2500000, 5000000, " hi "⟩

/-- Well-formedness of one Whisper batch outcome, as hypothesized by
claim C5: the transcription capability returns cues ordered by start
time, each a valid time span (`0 ≤ start ≤ stop`); a failed call
(`none`) is vacuously fine. -/
def cuesOk : BatchOutcome → Prop
  | none => True
  | some l =>
    List.Chain' (fun a b => a.start ≤ b.start) l ∧ ∀ c ∈ l, 0 ≤ c.start ∧ c.start ≤ c.stop

instance : DecidableRel (fun a b : Cue => a.start ≤ b.start) :=
  fun a b => inferInstanceAs (Decidable (a.start ≤ b.start))

instance (r : BatchOutcome) : Decidable (cuesOk r) :=
  match r with
  | none => isTrue trivial
  | some _ => inferInstanceAs (Decidable (_ ∧ _))

/-- Loop invariant for claim C5: the ghost GlobalCue log is sorted by
global start, and every logged global start is at most the running
offset. -/
def GoodState (s : RunState) : Prop :=
  List.Chain' (fun a b => a.gstart ≤ b.gstart) s.globalCues
    ∧ ∀ c ∈ s.globalCues, c.gstart ≤ s.offset

/-- Loop invariant for the amended claim C1: the accumulator stays below
the batch ceiling at iteration boundaries, and every flushed batch
exceeded the ceiling by less than its final chunk. -/
def SizeInv (s : RunState) : Prop :=
  s.accumSize < AUDIO_BATCH_SIZE_BYTES
    ∧ ∀ b ∈ s.batchLog, b.size < AUDIO_BATCH_SIZE_BYTES + b.lastChunkSize

/-- Claim C1, counterexample: with three 50 MB video chunks each
transcoding to 13 MB of audio — every single chunk well below the 24 MB
ceiling — the pipeline submits a batch of 26 MB (27262976 bytes) to the
transcription capability, exceeding `AUDIO_BATCH_SIZE_BYTES`, because
the flush check runs only after a whole chunk has been accumulated. -/
theorem c1_counterexample :
    (process_video_task_streaming 24 DvcMode.bound envC1).batchLog.map (fun b => b.size)
      = [27262976, 13631488]
    ∧ ¬ (27262976 ≤ AUDIO_BATCH_SIZE_BYTES)
    ∧ envC1.chunkAudio 0 = some (13631488, 1000000)
    ∧ envC1.chunkAudio 1 = some (13631488, 1000000)
    ∧ envC1.chunkAudio 2 = some (13631488, 1000000)
    ∧ 13631488 ≤ AUDIO_BATCH_SIZE_BYTES := by decide

/-- Claim C3 (code bug), evaluation at the failing input: one chunk whose
audio measures 60 s (`chunk_duration` from ffprobe, recorded by the
source and discarded) while its transcript's last cue ends at 55 s.  The
source advances `total_duration_offset` by 55 — the `max` of the cue end
timestamps — not by the measured duration 60. -/
theorem c3_evaluation :
    (process_video_task_streaming 24 DvcMode.bound envC3).batchLog.map
        (fun b => (b.measuredDur, b.advance)) = [(60000000, 55000000)]
    ∧ (process_video_task_streaming 24 DvcMode.bound envC3).offset = 55000000
    ∧ (55000000 : Int) ≠ 60000000 := by decide

/-- Claim C4 (code bug), evaluation at the failing input: batch 1
measures 30 s of audio but yields zero cues, so `if srt_part:` is false
and `total_duration_offset` advances by 0, not by the measured 30 s;
batch 2's cue (local time 0-5) is then emitted at global start 0 even
though 30 s of real audio precede it — shifted backward. -/
theorem c4_evaluation :
    (process_video_task_streaming 24 DvcMode.bound envC4).batchLog.map
        (fun b => (b.measuredDur, b.advance, b.nCues))
        = [(30000000, 0, 0), (4000000, 5000000, 1)]
    ∧ (process_video_task_streaming 24 DvcMode.bound envC4).globalCues.map
        (fun c => c.gstart) = [0]
    ∧ ¬ ((30000000 : Int) ≤ 0) := by decide

/-- Claim C6, counterexample: for the single global cue (2.5 s, 5 s,
" hi ") the source renders `"1\n0:00:02,500 --> 0:00\nhi\n"` — hours
unpadded, the whole-second end timestamp degenerating to `0:00`, and no
blank line — while the claim's format demands
`"1\n00:00:02,500 --> 00:00:05,000\nhi\n\n"`. -/
theorem c6_counterexample : renderSrtFile [c6cue] ≠ claimedRenderC6 [c6cue] := by decide

/-- Claim C8, counterexample: a task whose pipeline work fully succeeds
(one batch, one cue, SRT uploaded) but whose success-callback POST
raises.  The exception reaches the outer handler, which then attempts a
failure-payload POST: a failure TaskResult IS produced and delivered for
this task, contradicting the claim. -/
theorem c8_counterexample :
    (process_video_task_streaming 24 DvcMode.bound envC8).posts
      = [PostKind.success, PostKind.failure]
    ∧ (process_video_task_streaming 24 DvcMode.bound envC8).parts ≠ [] := by decide

/-- Claim C9 (code bug), evaluation at the failing input: a POST body
carrying non-empty `video_url`, `task_id` and `webhook_url` — the three
fields the code's own 400 error message names as required — is rejected
with 400 and processing never starts, because src/main.py line 39 reads
the webhook from the key `n8n_webhook`; supplying that key instead is
accepted with 200. -/
theorem c9_evaluation :
    handle_request "POST" (some [("video_url", JVal.s "u"), ("task_id", JVal.s "t"),
        ("webhook_url", JVal.s "w")]) = ⟨400, false⟩
    ∧ handle_request "POST" (some [("video_url", JVal.s "u"), ("task_id", JVal.s "t"),
        ("n8n_webhook", JVal.s "w")]) = ⟨200, true⟩ := by decide

/-- Claim C10, counterexample: with the caller supplying
`max_segment_mb = 10` and two chunks of 12 MB audio each, no batch is
flushed after the first chunk (12 MB already exceeds the caller's 10 MB
ceiling) and the single emitted batch holds 24 MB — the pipeline batches
against the hardcoded `AUDIO_BATCH_SIZE_BYTES`, and its behaviour is
bit-for-bit identical under `max_segment_mb = 24`. -/
theorem c10_counterexample :
    (process_video_task 10 DvcMode.bound envC10).batchLog.map (fun b => b.size) = [25165824]
    ∧ ¬ (25165824 ≤ 10 * 1024 * 1024)
    ∧ process_video_task 10 DvcMode.bound envC10 = process_video_task 24 DvcMode.bound envC10
    := by decide

/- ### Helper lemmas: the batch-duration fold -/

/-- The running `max` fold never drops below its seed. -/
theorem foldl_maxstop_le_init (l : List Cue) :
    ∀ d : Int, d ≤ l.foldl (fun a c => max a c.stop) d := by
  induction l with
  | nil => intro d; exact le_refl d
  | cons c t ih => intro d; exact le_trans (le_max_left d c.stop) (ih (max d c.stop))

/-- Every member's `stop` is at most the running `max` fold. -/
theorem stop_le_foldl_maxstop {l : List Cue} {c : Cue} (hc : c ∈ l) :
    ∀ d : Int, c.stop ≤ l.foldl (fun a x => max a x.stop) d := by
  induction l with
  | nil => cases hc
  | cons a t ih =>
    intro d
    rcases List.mem_cons.mp hc with h | h
    · subst h
      exact le_trans (le_max_right d c.stop) (foldl_maxstop_le_init t (max d c.stop))
    · exact ih h (max d a.stop)

/-- Shifting a start-sorted cue list by a common offset keeps the global
starts sorted. -/
theorem chain_shift (off : Int) {segs : List Cue}
    (hsort : List.Chain' (fun a b => a.start ≤ b.start) segs) :
    List.Chain' (fun a b => a.gstart ≤ b.gstart) (segs.map (globalize off)) := by
  rw [List.chain'_map]
  exact hsort.imp (fun {a b} h => by simpa [globalize] using add_le_add_right h off)

/- ### Preservation of the C5 invariant through the loop -/

/-- Flushing one batch preserves `GoodState` whenever the batch outcome
is well-formed. -/
theorem flushBatch_good (env : Env) (aS a1 : Nat) (aD : Int) (s : RunState)
    (hres : cuesOk (env.batchResult (s.batchCount + 1)))
    (hs : GoodState s) : GoodState (flushBatch env aS a1 aD s) := by
  unfold flushBatch
  generalize hr : env.batchResult (s.batchCount + 1) = r
  rw [hr] at hres
  cases r with
  | none => exact hs
  | some segs =>
    obtain ⟨hsort, hwf⟩ := hres
    by_cases hseg : segs = []
    · subst hseg
      exact hs
    · have hne : ¬ (List.map (srtEntryLines s.offset) segs = []) := by
        simpa using hseg
      simp only [process_audio_batch, globalizeCues, ne_eq, hne, not_false_eq_true, if_true]
      constructor
      · refine List.Chain'.append hs.1 (chain_shift s.offset hsort) ?_
        intro x hx y hy
        have hx' : x.gstart ≤ s.offset := hs.2 x (List.mem_of_mem_getLast? hx)
        rw [List.head?_map] at hy
        rcases Option.map_eq_some'.mp hy with ⟨c, hc, rfl⟩
        have hc0 : 0 ≤ c.start := (hwf c (List.mem_of_mem_head? (by simpa using hc))).1
        exact le_trans hx' (le_add_of_nonneg_left hc0)
      · intro c hc
        rcases List.mem_append.mp hc with h | h
        · have hdur : (0 : Int) ≤ segs.foldl (fun a x => max a x.stop) 0 :=
            foldl_maxstop_le_init segs 0
          exact le_trans (hs.2 c h) (le_add_of_nonneg_right hdur)
        · obtain ⟨c0, hc0, rfl⟩ := List.mem_map.mp h
          have h1 : c0.start ≤ c0.stop := (hwf c0 hc0).2
          have h2 : c0.stop ≤ segs.foldl (fun a x => max a x.stop) 0 :=
            stop_le_foldl_maxstop hc0 0
          simp only [globalize]
          omega

/-- One loop iteration preserves `GoodState`. -/
theorem stepChunk_good (dvc : DvcMode) (env : Env) (n i : Nat) (s : RunState)
    (hres : cuesOk (env.batchResult (s.batchCount + 1)))
    (hs : GoodState s) : GoodState (resultState (stepChunk dvc env n i s)) := by
  cases dvc with
  | unbound => exact hs
  | bound =>
    simp only [stepChunk]
    split
    · split
      · split
        · exact hs
        · split
          · exact flushBatch_good env _ _ _ s hres hs
          · exact hs
      · exact hs
    · exact hs

/-- The whole loop preserves `GoodState` when every batch outcome is
well-formed. -/
theorem runChunks_good (dvc : DvcMode) (env : Env) (n : Nat)
    (h : ∀ b, cuesOk (env.batchResult b)) :
    ∀ (l : List Nat) (s : RunState), GoodState s →
      GoodState (resultState (runChunks dvc env n l s)) := by
  intro l
  induction l with
  | nil => intro s hs; exact hs
  | cons i t ih =>
    intro s hs
    unfold runChunks
    cases hstep : stepChunk dvc env n i s with
    | ok s2 =>
      have h2 := stepChunk_good dvc env n i s (h _) hs
      rw [hstep] at h2
      exact ih s2 h2
    | err s2 m =>
      have h2 := stepChunk_good dvc env n i s (h _) hs
      rw [hstep] at h2
      exact h2

/- ### Claim C5: global monotonicity -/

/-- The loop result of the pipeline body keeps the ghost cue log sorted. -/
theorem pipelineBody_chain (m : Nat) (dvc : DvcMode) (env : Env)
    (h : ∀ b, cuesOk (env.batchResult b)) :
    List.Chain' (fun a b => a.gstart ≤ b.gstart)
      (resultState (pipelineBody m dvc env)).globalCues := by
  have hinit : GoodState initState := by
    constructor
    · exact List.chain'_nil
    · intro c hc
      cases hc
  have hloop := runChunks_good dvc env (num_video_chunks env.totalSize) h
    (List.range (num_video_chunks env.totalSize)) initState hinit
  simp only [pipelineBody]
  split
  · split
    · split
      · rename_i s msg heq
        rw [heq] at hloop
        exact hloop.1
      · rename_i s heq
        rw [heq] at hloop
        split
        · split
          · split
            · exact hloop.1
            · exact hloop.1
          · exact hloop.1
        · exact hloop.1
    · exact List.chain'_nil
  · exact List.chain'_nil

/-- Claim C5: under the hypothesis that the transcription capability
returns, within each batch, cues sorted by start time and each a valid
nonnegative time span, the emitted GlobalCue sequence is globally
monotonic: every cue's `global_start` is at most the next one's. -/
theorem c5_monotonic (m : Nat) (dvc : DvcMode) (env : Env)
    (h : ∀ b, cuesOk (env.batchResult b)) :
    List.Chain' (fun a b => a.gstart ≤ b.gstart)
      (process_video_task_streaming m dvc env).globalCues := by
  have hb := pipelineBody_chain m dvc env h
  simp only [process_video_task_streaming]
  cases hbody : pipelineBody m dvc env with
  | ok s =>
    rw [hbody] at hb
    exact hb
  | err s msg =>
    rw [hbody] at hb
    exact hb

/-- Witness for `c5_monotonic` at a concrete environment whose batches
all transcribe to two ordered, well-formed cues. -/
theorem c5_witness :
    List.Chain' (fun a b => a.gstart ≤ b.gstart)
      (process_video_task_streaming 24 DvcMode.bound envC5w).globalCues := by
  have hcues : ∀ b, cuesOk (envC5w.batchResult b) := by
    intro b
    show cuesOk (some [⟨0, 1000000, "a"⟩, ⟨2000000, 3000000, "b"⟩])
    refine ⟨List.chain'_cons.mpr ⟨by decide, List.chain'_singleton _⟩, ?_⟩
    intro c hc
    rcases List.mem_cons.mp hc with rfl | hc
    · exact ⟨by decide, by decide⟩
    · rcases List.mem_cons.mp hc with rfl | hc
      · exact ⟨by decide, by decide⟩
      · cases hc
  exact c5_monotonic 24 DvcMode.bound envC5w hcues

/- ### Webhook-post bookkeeping of the loop -/

/-- Flushing a batch performs no webhook POST. -/
theorem flushBatch_posts (env : Env) (aS a1 : Nat) (aD : Int) (s : RunState) :
    (flushBatch env aS a1 aD s).posts = s.posts := by
  unfold flushBatch
  split
  · rfl
  · rfl

/-- A loop iteration performs no webhook POST. -/
theorem stepChunk_posts (dvc : DvcMode) (env : Env) (n i : Nat) (s : RunState) :
    (resultState (stepChunk dvc env n i s)).posts = s.posts := by
  cases dvc with
  | unbound => rfl
  | bound =>
    simp only [stepChunk]
    split
    · split
      · split
        · rfl
        · split
          · exact flushBatch_posts env _ _ _ s
          · rfl
      · rfl
    · rfl

/-- The whole chunk loop performs no webhook POST. -/
theorem runChunks_posts (dvc : DvcMode) (env : Env) (n : Nat) :
    ∀ (l : List Nat) (s : RunState),
      (resultState (runChunks dvc env n l s)).posts = s.posts := by
  intro l
  induction l with
  | nil => intro s; rfl
  | cons i t ih =>
    intro s
    unfold runChunks
    cases hstep : stepChunk dvc env n i s with
    | ok s2 =>
      have h1 := stepChunk_posts dvc env n i s
      rw [hstep] at h1
      exact (ih s2).trans h1
    | err s2 msg =>
      have h1 := stepChunk_posts dvc env n i s
      rw [hstep] at h1
      exact h1

/-- Classification of the webhook posts recorded by the `try` body: a
normal return carries exactly the one success POST (which did not
raise); an exception carries either no post at all, or the one success
POST that itself raised. -/
theorem pipelineBody_posts (m : Nat) (dvc : DvcMode) (env : Env) :
    (∀ s, pipelineBody m dvc env = StepResult.ok s →
        s.posts = [PostKind.success] ∧ env.successPostOk = true)
    ∧ (∀ s msg, pipelineBody m dvc env = StepResult.err s msg →
        s.posts = [] ∨ (s.posts = [PostKind.success] ∧ env.successPostOk = false)) := by
  have hloop := runChunks_posts dvc env (num_video_chunks env.totalSize)
    (List.range (num_video_chunks env.totalSize)) initState
  simp only [pipelineBody]
  split
  · split
    · split
      · rename_i s0 msg0 heq
        rw [heq] at hloop
        have hp0 : s0.posts = [] := hloop
        constructor
        · intro s hok
          cases hok
        · intro s msg herr
          cases herr
          left
          exact hp0
      · rename_i s0 heq
        rw [heq] at hloop
        have hp0 : s0.posts = [] := hloop
        constructor
        · intro s hok
          split at hok
          · split at hok
            · split at hok
              · rename_i hsp
                cases hok
                refine ⟨?_, hsp⟩
                simp [hp0]
              · cases hok
            · cases hok
          · cases hok
        · intro s msg herr
          split at herr
          · split at herr
            · split at herr
              · cases herr
              · rename_i hsp
                cases herr
                right
                refine ⟨by simp [hp0], by simpa using hsp⟩
            · cases herr
              left
              exact hp0
          · cases herr
            left
            exact hp0
    · constructor
      · intro s hok
        cases hok
      · intro s msg herr
        cases herr
        left
        rfl
  · constructor
    · intro s hok
      cases hok
    · intro s msg herr
      cases herr
      left
      rfl

/- ### Claim C7: the outer error boundary -/

/-- Claim C7: whenever the `try` body raises — any fetch, metadata,
chunk-download, transcode, batch or storage failure — the task function
still returns normally (it is a total function into `RunState`) and
attempts exactly one best-effort failure-payload POST; the POST attempt
itself is wrapped in a bare `try/except: pass` and cannot raise. -/
theorem c7_error_boundary (m : Nat) (dvc : DvcMode) (env : Env) (s : RunState) (msg : String)
    (h : pipelineBody m dvc env = StepResult.err s msg) :
    (process_video_task_streaming m dvc env).posts.count PostKind.failure = 1 := by
  have hch := (pipelineBody_posts m dvc env).2 s msg h
  simp only [process_video_task_streaming, h]
  rcases hch with hp | ⟨hp, _⟩
  · simp only [hp]
    decide
  · simp only [hp]
    decide

/-- Witness for `c7_error_boundary`: metadata download fails. -/
theorem c7_witness :
    (process_video_task_streaming 24 DvcMode.bound envC7w).posts.count PostKind.failure = 1 :=
  c7_error_boundary 24 DvcMode.bound envC7w initState "cannot download MP4 metadata" (by decide)

/- ### Claim C8 (amended): success-callback failure is re-routed -/

/-- Amended claim C8: when the success-callback POST raises, it is
attempted at most once (never retried), and every run that attempted it
also attempts exactly one failure-payload POST — the task is handled as
failed rather than merely logged. -/
theorem c8_amended_thm (m : Nat) (dvc : DvcMode) (env : Env)
    (h : env.successPostOk = false) :
    (process_video_task_streaming m dvc env).posts.count PostKind.success ≤ 1
    ∧ ((process_video_task_streaming m dvc env).posts.count PostKind.success = 1 →
        (process_video_task_streaming m dvc env).posts.count PostKind.failure = 1) := by
  simp only [process_video_task_streaming]
  cases hbody : pipelineBody m dvc env with
  | ok s =>
    have hok := (pipelineBody_posts m dvc env).1 s hbody
    rw [h] at hok
    exact absurd hok.2 (by decide)
  | err s msg =>
    have hch := (pipelineBody_posts m dvc env).2 s msg hbody
    rcases hch with hp | ⟨hp, _⟩
    · constructor
      · simp only [hp]
        decide
      · intro hcount
        simp only [hp]
        decide
    · constructor
      · simp only [hp]
        decide
      · intro hcount
        simp only [hp]
        decide

/-- Witness for `c8_amended_thm` at the concrete environment of the C8
counterexample. -/
theorem c8_amended_witness :
    (process_video_task_streaming 24 DvcMode.bound envC8).posts.count PostKind.success ≤ 1
    ∧ ((process_video_task_streaming 24 DvcMode.bound envC8).posts.count PostKind.success = 1 →
        (process_video_task_streaming 24 DvcMode.bound envC8).posts.count PostKind.failure = 1) :=
  c8_amended_thm 24 DvcMode.bound envC8 rfl

/- ### Claim C2: the unbound download_video_chunk -/

/-- With `download_video_chunk` unbound, the first loop iteration raises
`NameError` immediately. -/
theorem runChunks_unbound_cons (env : Env) (n i : Nat) (t : List Nat) (s : RunState) :
    runChunks DvcMode.unbound env n (i :: t) s = StepResult.err s nameErrorMsg := rfl

/-- With `download_video_chunk` unbound, the `try` body always raises,
whatever the environment does. -/
theorem pipelineBody_unbound (m : Nat) (env : Env) :
    ∃ msg, pipelineBody m DvcMode.unbound env = StepResult.err initState msg := by
  simp only [pipelineBody]
  split
  · split
    · cases hn : num_video_chunks env.totalSize with
      | zero =>
        exact ⟨"no audio batch processed", rfl⟩
      | succ k =>
        rw [List.range_succ_eq_map, runChunks_unbound_cons]
        exact ⟨nameErrorMsg, rfl⟩
    · exact ⟨"cannot download MP4 metadata", rfl⟩
  · exact ⟨"HEAD request failed", rfl⟩

/-- Claim C2: `download_video_chunk` is not bound at module scope in
src/utils.py; consequently, for every environment the task takes the
failure path (exactly one failure POST, never a success POST), and
whenever the chunk loop is actually reached with at least one chunk the
body raises `NameError` at the very first chunk. -/
theorem c2_dead_name :
    ("download_video_chunk" ∉ utilsModuleNames)
    ∧ (∀ (m : Nat) (env : Env),
        (process_video_task_streaming m DvcMode.unbound env).posts.count PostKind.success = 0
        ∧ (process_video_task_streaming m DvcMode.unbound env).posts.count PostKind.failure = 1)
    ∧ (∀ (m : Nat) (env : Env), env.headOk = true → env.metadataOk = true →
        1 ≤ num_video_chunks env.totalSize →
        pipelineBody m DvcMode.unbound env = StepResult.err initState nameErrorMsg) := by
  refine ⟨by decide, ?_, ?_⟩
  · intro m env
    obtain ⟨msg, hmsg⟩ := pipelineBody_unbound m env
    simp only [process_video_task_streaming, hmsg]
    constructor
    · decide
    · decide
  · intro m env h1 h2 hn
    obtain ⟨k, hk⟩ : ∃ k, num_video_chunks env.totalSize = k + 1 := by
      cases hnn : num_video_chunks env.totalSize with
      | zero =>
        rw [hnn] at hn
        exact absurd hn (by decide)
      | succ k => exact ⟨k, rfl⟩
    simp [pipelineBody, h1, h2, hk, List.range_succ_eq_map, runChunks_unbound_cons]

/-- Witness for `c2_dead_name` at a concrete one-chunk environment. -/
theorem c2_witness :
    pipelineBody 24 DvcMode.unbound envC2w = StepResult.err initState nameErrorMsg
    ∧ (process_video_task_streaming 24 DvcMode.unbound envC2w).posts.count PostKind.failure = 1 :=
  ⟨c2_dead_name.2.2 24 envC2w rfl rfl (by decide), (c2_dead_name.2.1 24 envC2w).2⟩

/- ### Claim C1 (amended): how far a batch can overshoot the ceiling -/

/-- Flushing preserves the size invariant when the incoming accumulated
size overshoots the ceiling by less than the final chunk. -/
theorem flushBatch_sizeInv (env : Env) (aS a1 : Nat) (aD : Int) (s : RunState)
    (hlt : aS < AUDIO_BATCH_SIZE_BYTES + a1)
    (hlog : ∀ b ∈ s.batchLog, b.size < AUDIO_BATCH_SIZE_BYTES + b.lastChunkSize) :
    SizeInv (flushBatch env aS a1 aD s) := by
  have hpos : 0 < AUDIO_BATCH_SIZE_BYTES := by decide
  unfold flushBatch
  split
  · constructor
    · exact hpos
    · intro b hb
      rcases List.mem_append.mp hb with hbl | hbr
      · exact hlog b hbl
      · have hb2 := List.mem_singleton.mp hbr
        subst hb2
        exact hlt
  · constructor
    · exact hpos
    · intro b hb
      rcases List.mem_append.mp hb with hbl | hbr
      · exact hlog b hbl
      · have hb2 := List.mem_singleton.mp hbr
        subst hb2
        exact hlt

/-- One loop iteration preserves the size invariant. -/
theorem stepChunk_sizeInv (dvc : DvcMode) (env : Env) (n i : Nat) (s : RunState)
    (hs : SizeInv s) : SizeInv (resultState (stepChunk dvc env n i s)) := by
  have hpos : 0 < AUDIO_BATCH_SIZE_BYTES := by decide
  cases dvc with
  | unbound => exact hs
  | bound =>
    simp only [stepChunk]
    split
    · split
      · split
        · exact hs
        · split
          · refine flushBatch_sizeInv env _ _ _ s ?_ hs.2
            have h1 := hs.1
            omega
          · rename_i audio heq hcond
            constructor
            · show s.accumSize + audio.1 < AUDIO_BATCH_SIZE_BYTES
              have h1 := hs.1
              omega
            · exact hs.2
      · exact hs
    · exact hs

/-- The whole chunk loop preserves the size invariant. -/
theorem runChunks_sizeInv (dvc : DvcMode) (env : Env) (n : Nat) :
    ∀ (l : List Nat) (s : RunState), SizeInv s →
      SizeInv (resultState (runChunks dvc env n l s)) := by
  intro l
  induction l with
  | nil => intro s hs; exact hs
  | cons i t ih =>
    intro s hs
    unfold runChunks
    cases hstep : stepChunk dvc env n i s with
    | ok s2 =>
      have h2 := stepChunk_sizeInv dvc env n i s hs
      rw [hstep] at h2
      exact ih s2 h2
    | err s2 msg =>
      have h2 := stepChunk_sizeInv dvc env n i s hs
      rw [hstep] at h2
      exact h2

/-- Every batch logged by the `try` body obeys the amended bound. -/
theorem pipelineBody_batchLog (m : Nat) (dvc : DvcMode) (env : Env) :
    ∀ b ∈ (resultState (pipelineBody m dvc env)).batchLog,
      b.size < AUDIO_BATCH_SIZE_BYTES + b.lastChunkSize := by
  have hinit : SizeInv initState := by
    constructor
    · decide
    · intro b hb
      cases hb
  have hloop := runChunks_sizeInv dvc env (num_video_chunks env.totalSize)
    (List.range (num_video_chunks env.totalSize)) initState hinit
  simp only [pipelineBody]
  split
  · split
    · split
      · rename_i s msg heq
        rw [heq] at hloop
        exact hloop.2
      · rename_i s heq
        rw [heq] at hloop
        split
        · split
          · split
            · exact hloop.2
            · exact hloop.2
          · exact hloop.2
        · exact hloop.2
    · intro b hb
      cases hb
  · intro b hb
    cases hb

/-- Amended claim C1: every batch submitted to the transcription
capability has encoded size strictly below the ceiling plus the size of
the final audio chunk that triggered its flush (equivalently: the
accumulator was below the ceiling before that chunk arrived).  The
ceiling itself can be exceeded, but never by a whole chunk or more. -/
theorem c1_amended_thm (m : Nat) (dvc : DvcMode) (env : Env) (b : BatchRecord)
    (hb : b ∈ (process_video_task_streaming m dvc env).batchLog) :
    b.size < AUDIO_BATCH_SIZE_BYTES + b.lastChunkSize := by
  have hbody := pipelineBody_batchLog m dvc env
  revert hb
  simp only [process_video_task_streaming]
  cases hbodyEq : pipelineBody m dvc env with
  | ok s =>
    rw [hbodyEq] at hbody
    intro hb
    exact hbody b hb
  | err s msg =>
    rw [hbodyEq] at hbody
    intro hb
    exact hbody b hb

/-- Witness for `c1_amended_thm`: the oversized 26 MB batch of the C1
counterexample still lies below ceiling-plus-final-chunk. -/
theorem c1_amended_witness :
    (⟨27262976, 13631488, 2000000, 0, 0⟩ : BatchRecord).size
      < AUDIO_BATCH_SIZE_BYTES + (⟨27262976, 13631488, 2000000, 0, 0⟩ : BatchRecord).lastChunkSize :=
  c1_amended_thm 24 DvcMode.bound envC1 ⟨27262976, 13631488, 2000000, 0, 0⟩ (by decide)

/- ### Claim C6 (amended) and C10 (amended) -/

/-- `enumFrom` commutes with `map`. -/
theorem enumFrom_map_pair {α β : Type} (f : α → β) :
    ∀ (n : Nat) (l : List α),
      List.enumFrom n (l.map f) = (List.enumFrom n l).map (fun p => (p.1, f p.2)) := by
  intro n l
  induction l generalizing n with
  | nil => rfl
  | cons a t ih =>
    simp only [List.map_cons, List.enumFrom]
    rw [ih]

/-- Amended claim C6: the serialized subtitle output assigns sequence
numbers 1..N in output order and renders every cue as the block
`{n}\n{start} --> {end}\n{text}\n` — a single newline terminates each
block, with no separating blank line; timestamps are rendered as Python
`str(timedelta)[:-3]` with dots replaced by commas, i.e. `H:MM:SS,mmm`
with unpadded hours and truncated microseconds, degenerating to `H:MM`
(the seconds field cut off) for whole-second times; text is trimmed of
leading and trailing whitespace only. -/
theorem c6_amended_thm :
    (∀ cues : List GlobalCue, renderSrtFile cues = amendedRenderC6 cues)
    ∧ srtTimestamp 5000000 = "0:00"
    ∧ srtTimestamp 2500000 = "0:00:02,500" := by
  refine ⟨?_, by decide, by decide⟩
  intro cues
  simp only [renderSrtFile, writeSrt, amendedRenderC6, List.enum]
  rw [enumFrom_map_pair]
  rw [List.map_map]
  rfl

/-- Amended claim C10: the batching threshold actually used is the
module constant `AUDIO_BATCH_SIZE_BYTES` (24 MB); the caller-supplied
`max_segment_mb` is parsed, defaulted to 24 when absent, passed down to
`process_video_task`, and then ignored — the pipeline's behaviour is
identical for every value of it.  When the field is not supplied the
default 24 happens to coincide with the constant, so the documented
default behaviour holds without error. -/
theorem c10_amended_thm :
    (∀ (m1 m2 : Nat) (dvc : DvcMode) (env : Env),
        process_video_task m1 dvc env = process_video_task m2 dvc env)
    ∧ parse_max_segment_mb [("video_url", JVal.s "u")] = JVal.n 24
    ∧ AUDIO_BATCH_SIZE_BYTES = 24 * 1024 * 1024 :=
  ⟨fun _ _ _ _ => rfl, rfl, rfl⟩

end BubbleSpec
